import Mathlib

/-!
Verification of the `learn_networks_maps` repository: a shallow embedding of
the two pipelines (`convert_pdf.py`, the PDF-text to CSV extractor, and
`scrape_incs.py`, the site scraper) together with theorems settling the
specification's claims.  Strings are modelled as `List Char`; the Python regex
patterns of `CharterschoolExtractor.__init__` are embedded as executable
decision procedures with the exact semantics of `re.match` / `re.search` on
those concrete patterns (including `$` also matching just before a final
newline, and `\s` meaning a Python whitespace character).
-/

namespace LNM

/-- Python whitespace for `\s` and `str.strip()` (the characters space, tab,
newline, carriage return, vertical tab, form feed). -/
def isPySpace (c : Char) : Bool :=
  c = ' ' || c = '\t' || c = '\n' || c = '\r' || c = Char.ofNat 11 || c = Char.ofNat 12

/-- A cased character, restricted to ASCII letters (the data processed by the
scripts is ASCII; non-ASCII cased letters are not modelled). -/
def isCased (c : Char) : Bool :=
  ('a' ≤ c && c ≤ 'z') || ('A' ≤ c && c ≤ 'Z')

/-- `str.isupper()`: at least one cased character and no cased character is
lowercase. -/
def pyIsUpper (l : List Char) : Bool :=
  l.any isCased && l.all (fun c => !(('a' ≤ c && c ≤ 'z') : Bool))

/-- Does `pat` occur at the start of `l`? (`str.startswith`, also the literal
part of an anchored regex). -/
def startsWithList : List Char → List Char → Bool
  | [], _ => true
  | _ :: _, [] => false
  | a :: pa, b :: lb => a = b && startsWithList pa lb

/-- Does `pat` occur somewhere in `l`? (`in` on Python strings). -/
def containsSub (pat : List Char) : List Char → Bool
  | [] => startsWithList pat []
  | c :: cs => startsWithList pat (c :: cs) || containsSub pat cs

/-- End-of-line for the regex anchor `$`: end of string, or just before a
final newline. -/
def atEnd : List Char → Bool
  | [] => true
  | ['\n'] => true
  | _ => false

/-- `\(\d{3}\)\s\d{3}-\d{4}` matching at the head of the list. -/
def phoneAt : List Char → Bool
  | '(' :: a :: b :: c :: ')' :: w :: d :: e :: f :: '-' :: g :: h :: i :: j :: _ =>
    a.isDigit && b.isDigit && c.isDigit && isPySpace w &&
    d.isDigit && e.isDigit && f.isDigit &&
    g.isDigit && h.isDigit && i.isDigit && j.isDigit
  | _ => false

/-- `re.search` of the phone pattern `\(\d{3}\)\s\d{3}-\d{4}`: a match at some
position of the line. -/
def containsPhone : List Char → Bool
  | [] => false
  | c :: cs => phoneAt (c :: cs) || containsPhone cs

/-- `\d{5}(?:-\d{4})?$`: the ZIP part at the end of the address pattern. -/
def zipTail : List Char → Bool
  | a :: b :: c :: d :: e :: rest =>
    a.isDigit && b.isDigit && c.isDigit && d.isDigit && e.isDigit &&
    (match rest with
     | [] => true
     | ['\n'] => true
     | '-' :: f :: g :: h :: i :: rest2 =>
       f.isDigit && g.isDigit && h.isDigit && i.isDigit && atEnd rest2
     | _ => false)
  | _ => false

/-- `IL\s\d{5}(?:-\d{4})?$` matching at the head of the list. -/
def ilTail : List Char → Bool
  | 'I' :: 'L' :: w :: rest => isPySpace w && zipTail rest
  | _ => false

/-- `.+?IL\s\d{5}(?:-\d{4})?$`: consume one or more non-newline characters,
then the `IL`+ZIP tail. -/
def midScan : List Char → Bool
  | [] => false
  | c :: cs => !(c = '\n') && (ilTail cs || midScan cs)

/-- After the first digit of `^\d+`: consume further digits or hand over to
`.+?IL...`. -/
def digitsThenMid : List Char → Bool
  | [] => false
  | c :: cs => midScan (c :: cs) || (c.isDigit && digitsThenMid cs)

/-- `re.match` of the address pattern `^\d+.+?IL\s\d{5}(?:-\d{4})?$`. -/
def addressMatch : List Char → Bool
  | [] => false
  | c :: cs => c.isDigit && digitsThenMid cs

/-- Drop a literal from the head of a list, `none` when it is not there. -/
def dropLit : List Char → List Char → Option (List Char)
  | [], l => some l
  | _ :: _, [] => none
  | a :: pa, b :: lb => if a = b then dropLit pa lb else none

/-- `re.match` of `https://www\.incschools\.org/school/[^/\s]+/?`: the line
starts with the fixed base URL followed by at least one character that is
neither `/` nor whitespace (an unanchored prefix match, the rest of the line
is unconstrained). -/
def urlMatch (l : List Char) : Bool :=
  match dropLit ("https://www.incschools.org/school/".data) l with
  | some (c :: _) => !(c = '/') && !isPySpace c
  | _ => false

/-- `\d+$`: one or more digits up to the end anchor. -/
def digitsEnd : List Char → Bool
  | [] => false
  | c :: cs => c.isDigit && (atEnd cs || digitsEnd cs)

/-- `-\s?\d+$` matching at the head of the list. -/
def hyphenDigits : List Char → Bool
  | '-' :: rest =>
    (match rest with
     | w :: rest2 => (isPySpace w && digitsEnd rest2) || digitsEnd rest
     | [] => false)
  | _ => false

/-- `\s?-\s?\d+$` matching at the head of the list. -/
def optSpaceHyphenDigits (l : List Char) : Bool :=
  match l with
  | w :: rest => (isPySpace w && hyphenDigits rest) || hyphenDigits l
  | [] => false

/-- After the first digit of the alternative `\d+\s?-\s?\d+$`. -/
def digitsDashRest : List Char → Bool
  | [] => false
  | c :: cs => optSpaceHyphenDigits (c :: cs) || (c.isDigit && digitsDashRest cs)

/-- `^\d+\s?-\s?\d+$`, the numeric grade-range alternative. -/
def digitsThenDash : List Char → Bool
  | [] => false
  | c :: cs => c.isDigit && digitsDashRest cs

/-- The whole line equals the literal, or the literal followed by a final
newline (the `$` anchor of a fully literal alternative). -/
def eqOrNl (l : List Char) (s : List Char) : Bool :=
  l = s || l = s ++ ['\n']

/-- `re.match` of `^(?:PK\s?-\s?\d+|K\s?-\s?\d+|\d+\s?-\s?\d+|N/A)$`. -/
def gradeMatch (l : List Char) : Bool :=
  (match l with
   | 'P' :: 'K' :: rest => optSpaceHyphenDigits rest
   | _ => false) ||
  (match l with
   | 'K' :: rest => optSpaceHyphenDigits rest
   | _ => false) ||
  digitsThenDash l ||
  eqOrNl l ("N/A".data)

/-- `re.match` of `^(?:Level\s\d\+?|Not Applicable|Inability to Rate)$`. -/
def sqrpMatch (l : List Char) : Bool :=
  (match l with
   | 'L' :: 'e' :: 'v' :: 'e' :: 'l' :: w :: d :: rest =>
     isPySpace w && d.isDigit && (atEnd rest || rest = ['+'] || rest = ['+', '\n'])
   | _ => false) ||
  eqOrNl l ("Not Applicable".data) ||
  eqOrNl l ("Inability to Rate".data)

/-- The closed set of categories returned by
`CharterschoolExtractor.identify_line_type`. -/
inductive LineType where
  | phone
  | address
  | url
  | charter_type
  | grade_levels
  | sqrp_rating
  | sqrp_rating_line
  | profile_line
  | unknown
deriving DecidableEq

/-- `CharterschoolExtractor.identify_line_type`: the pattern tests in the
source's fixed priority order, first match wins. -/
def identify_line_type (line : List Char) : LineType :=
  if containsPhone line then LineType.phone
  else if addressMatch line then LineType.address
  else if urlMatch line then LineType.url
  else if line = "Charter".data then LineType.charter_type
  else if gradeMatch line then LineType.grade_levels
  else if sqrpMatch line then LineType.sqrp_rating
  else if startsWithList ("SQRP Rating:".data) line then LineType.sqrp_rating_line
  else if startsWithList ("School Profile:".data) line then LineType.profile_line
  else LineType.unknown

/-- `str.strip()`: remove leading and trailing Python whitespace. -/
def pyStrip (l : List Char) : List Char :=
  ((l.dropWhile isPySpace).reverse.dropWhile isPySpace).reverse

/-- Fueled worker for `str.replace`: replace non-overlapping occurrences left
to right.  The fuel starts at the length of the list and every recursive call
removes at least one character when the pattern is non-empty, so the
fuel-exhausted branch is never reached at the call site below. -/
def replGo (pat rep : List Char) : Nat → List Char → List Char
  | _, [] => []
  | 0, l => l
  | fuel + 1, c :: cs =>
    if startsWithList pat (c :: cs) then
      rep ++ replGo pat rep fuel ((c :: cs).drop pat.length)
    else
      c :: replGo pat rep fuel cs

/-- `str.replace(pat, rep)` for a non-empty `pat` (all the patterns the
scripts replace are non-empty literals; an empty `pat` is modelled as the
identity). -/
def replaceAll (pat rep l : List Char) : List Char :=
  if pat = [] then l else replGo pat rep l.length l

/-- `str.split('\n')`. -/
def splitNl : List Char → List (List Char)
  | [] => [[]]
  | c :: rest =>
    if c = '\n' then [] :: splitNl rest
    else
      match splitNl rest with
      | [] => [[c]]
      | h :: t => (c :: h) :: t

/-- `re.match` of the page-number pattern `^\d+/\d+$`: after at least one
digit, a slash, then digits to the end. -/
def pageNumAfterD : List Char → Bool
  | [] => false
  | c :: cs => if c = '/' then digitsEnd cs else c.isDigit && pageNumAfterD cs

/-- `re.match(r'^\d+/\d+$', line)`. -/
def pageNumMatch : List Char → Bool
  | [] => false
  | c :: cs => c.isDigit && pageNumAfterD cs

/-- The filtering rules of `clean_text_lines` other than the `Results` rule:
the stripped line is kept only when it is non-empty, contains none of the
boilerplate literals, is not a bare page number, and is not a date header. -/
def keepOther (l : List Char) : Bool :=
  !(l.isEmpty) &&
  !(containsSub ("Privacy - Terms".data) l) &&
  !(containsSub ("Find a Charter School".data) l) &&
  !(containsSub ("Illinois Network of Charter Schools".data) l) &&
  !(pageNumMatch l) &&
  !(containsSub ("https://www.incschools.org/find-a-charter-school/?".data) l) &&
  !(startsWithList ("7/4/25".data) l)

/-- The whole keep test of `clean_text_lines`: the other rules, and the line
is dropped when it contains `Results` and has fewer than 3 space characters
(`line.count(' ') < 3`). -/
def keepLine (l : List Char) : Bool :=
  keepOther l && !(containsSub ("Results".data) l && decide (l.count ' ' < 3))

/-- `CharterschoolExtractor.clean_text_lines`: split the raw text on
newlines, strip each line, and keep the lines passing the filter, in order. -/
def clean_text_lines (text : List Char) : List (List Char) :=
  (splitNl text).filterMap (fun line =>
    let l := pyStrip line
    if keepLine l then some l else none)

/-- The `current_school` dictionary of `extract_schools_data`: each key is
present (`some`) or absent (`none`), matching the Python dict whose keys are
only ever the seven field names. -/
structure Rec where
  School_Name : Option (List Char)
  Address : Option (List Char)
  Phone_Number : Option (List Char)
  Charter_Type : Option (List Char)
  Grade_Levels : Option (List Char)
  SQRP_Rating : Option (List Char)
  School_Profile_URL : Option (List Char)
deriving DecidableEq

/-- The initial empty dict `current_school = {}`. -/
def emptyRec : Rec :=
  ⟨none, none, none, none, none, none, none⟩

/-- `school.get(key, '')`: the value of a key, the empty string when absent. -/
def getS (o : Option (List Char)) : List Char :=
  o.getD []

/-- `CharterschoolExtractor._is_school_complete`. -/
def is_school_complete (r : Rec) : Bool :=
  !(getS r.School_Name).isEmpty && !(getS r.Address).isEmpty

/-- Append the current record to the output when it is complete (the flush
done both on a new name line and at end of input). -/
def flushIf (ss : List Rec) (cur : Rec) : List Rec :=
  ss ++ (if is_school_complete cur then [cur] else [])

/-- The fresh record seeded when a line is taken as a new school's name: all
seven keys present, `Charter_Type` defaulted to `Charter`, the rest empty. -/
def seedRec (line : List Char) : Rec :=
  ⟨some line, some [], some [], some ("Charter".data), some [], some [], some []⟩

/-- One iteration of the loop body of `extract_schools_data`: classify the
line; an `unknown` line longer than 10 characters that is not entirely
upper-case starts a new school (flushing the current record when complete);
otherwise the matching `elif` branch overwrites one field; `charter_type`
lines and `unknown` lines failing the heuristic hit no branch and leave the
state unchanged. -/
def step (st : List Rec × Rec) (line : List Char) : List Rec × Rec :=
  let t := identify_line_type line
  if t = LineType.unknown ∧ 10 < line.length ∧ pyIsUpper line = false then
    (flushIf st.1 st.2, seedRec line)
  else
    match t with
    | LineType.address => (st.1, { st.2 with Address := some line })
    | LineType.phone => (st.1, { st.2 with Phone_Number := some line })
    | LineType.grade_levels => (st.1, { st.2 with Grade_Levels := some line })
    | LineType.sqrp_rating => (st.1, { st.2 with SQRP_Rating := some line })
    | LineType.sqrp_rating_line =>
      (st.1, { st.2 with SQRP_Rating := some (pyStrip (replaceAll ("SQRP Rating:".data) [] line)) })
    | LineType.url => (st.1, { st.2 with School_Profile_URL := some line })
    | LineType.profile_line =>
      (st.1, { st.2 with School_Profile_URL := some (pyStrip (replaceAll ("School Profile:".data) [] line)) })
    | _ => st

/-- `CharterschoolExtractor.extract_schools_data`: fold the loop body over
the lines starting from an empty output and an empty dict, then flush the
last record when complete. -/
def extract_schools_data (lines : List (List Char)) : List Rec :=
  let p := lines.foldl step ([], emptyRec)
  flushIf p.1 p.2

/-! ### Invariants of the record assembler -/

/-- A well-formed output record: name and address non-empty and charter type
at its seeded default. -/
def GoodRec (r : Rec) : Prop :=
  getS r.School_Name ≠ [] ∧ getS r.Address ≠ [] ∧ r.Charter_Type = some ("Charter".data)

/-- Loop invariant of `extract_schools_data`: every emitted record is
well-formed, and whenever the current record has a non-empty name it was
seeded, so its charter type is the default. -/
def InvState (p : List Rec × Rec) : Prop :=
  (∀ r ∈ p.1, GoodRec r) ∧
  (getS p.2.School_Name ≠ [] → p.2.Charter_Type = some ("Charter".data))

/-! ### Spec-side predicates (from the claims' wording, for comparison) -/

/-- Spec-side decomposition of a line the amended C2 claim covers: one or
more leading digits, at least one further (non-newline) character, then the
literal `IL`, a space, a 5-digit ZIP and an optional `-dddd` suffix. -/
def specAddrIL (l : List Char) : Prop :=
  ∃ d m z1 z2 z3 z4 z5 t,
    d ≠ [] ∧ (∀ c ∈ d, c.isDigit = true) ∧
    m ≠ [] ∧ '\n' ∉ m ∧
    z1.isDigit = true ∧ z2.isDigit = true ∧ z3.isDigit = true ∧
    z4.isDigit = true ∧ z5.isDigit = true ∧
    (t = [] ∨ ∃ y1 y2 y3 y4,
      y1.isDigit = true ∧ y2.isDigit = true ∧ y3.isDigit = true ∧
      y4.isDigit = true ∧ t = ['-', y1, y2, y3, y4]) ∧
    l = d ++ m ++ 'I' :: 'L' :: ' ' :: z1 :: z2 :: z3 :: z4 :: z5 :: t

/-- The original C2 claim's condition on a line, taken from its wording: the
whole line starts with one or more digits and ends with any two-letter state
code (two upper-case letters) followed by a space and a 5-digit ZIP. -/
def specClaimAddress (l : List Char) : Prop :=
  (∃ c rest, l = c :: rest ∧ c.isDigit = true) ∧
  (∃ pre u1 u2 z1 z2 z3 z4 z5,
    ('A' ≤ u1 ∧ u1 ≤ 'Z') ∧ ('A' ≤ u2 ∧ u2 ≤ 'Z') ∧
    z1.isDigit = true ∧ z2.isDigit = true ∧ z3.isDigit = true ∧
    z4.isDigit = true ∧ z5.isDigit = true ∧
    l = pre ++ [u1, u2, ' ', z1, z2, z3, z4, z5])

/-- Worker for the spec-side token count: the flag records whether the scan
is currently inside a token. -/
def tokCount : Bool → List Char → Nat
  | _, [] => 0
  | inTok, c :: cs =>
    if c = ' ' then tokCount false cs
    else (if inTok then 0 else 1) + tokCount true cs

/-- Spec-side count of space-separated tokens of a line (the C6 claim's
"space-separated tokens": maximal runs of non-space characters). -/
def specTokenCount (l : List Char) : Nat :=
  tokCount false l

/-! ### Pipeline B: `scrape_incs.py` -/

/-- One matched list item as the parser hands it to the loop body of
`scrape_incs_schools_selenium`: the anchor (its stripped text and optional
`href`), and the stripped text of each optional labeled sub-element. -/
structure LItem where
  anchor : Option (List Char × Option (List Char))
  address : Option (List Char)
  phone : Option (List Char)
  grades : Option (List Char)
  charter : Option (List Char)
  network : Option (List Char)
deriving DecidableEq

/-- A list item with every sub-element absent. -/
def emptyItem : LItem :=
  ⟨none, none, none, none, none, none⟩

/-- The flat record `scrape_incs_schools_selenium` builds per list item. -/
structure Listing where
  name : List Char
  link : List Char
  address : List Char
  phone : List Char
  grades : List Char
  charter : List Char
  network : List Char
deriving DecidableEq

/-- The loop body of `scrape_incs_schools_selenium` for one list item:
name/link from the anchor, address and phone verbatim, grades/charter/network
with their label literal replaced and the result stripped; any absent
sub-element yields the empty string. -/
def extractItem (li : LItem) : Listing :=
  { name := match li.anchor with | some (t, _) => t | none => []
    link := match li.anchor with | some (_, some h) => h | _ => []
    address := getS li.address
    phone := getS li.phone
    grades :=
      match li.grades with
      | some t => pyStrip (replaceAll ("Grades Served:".data) [] t)
      | none => []
    charter :=
      match li.charter with
      | some t => pyStrip (replaceAll ("Charter Type:".data) [] t)
      | none => []
    network :=
      match li.network with
      | some t => pyStrip (replaceAll ("Network:".data) [] t)
      | none => [] }

/-- The C7 claim's assertion instantiated at the address field: some fixed
non-empty label is removed from the front of the address sub-element's text
whenever it is present. -/
def addressLabelStripped : Prop :=
  ∃ lab : List Char, lab ≠ [] ∧ ∀ t : List Char,
    (extractItem { emptyItem with address := some (lab ++ t) }).address = pyStrip t

/-- The error `os.makedirs` can raise in the modelled scenario. -/
inductive OSErr where
  | fileNotFound
deriving DecidableEq

/-- `os.path.dirname` for POSIX paths: everything up to the last slash, with
trailing slashes stripped unless the head is entirely slashes; the empty
string when the path has no slash. -/
def dirname (p : List Char) : List Char :=
  let head := (p.reverse.dropWhile (fun c => !(c = '/'))).reverse
  if head ≠ [] ∧ ¬(head.all (fun c => c = '/') = true) then
    (head.reverse.dropWhile (fun c => c = '/')).reverse
  else head

/-- Models `os.makedirs(path, exist_ok=True)` over an idealized filesystem:
the empty path raises `FileNotFoundError` (`mkdir('')` fails with `ENOENT`),
any non-empty path succeeds. -/
def makedirs (p : List Char) : Except OSErr Unit :=
  if p = [] then Except.error OSErr.fileNotFound else Except.ok ()

/-- The observable outcome of the `__main__` block of `scrape_incs.py` up to
the point where scraping would start. -/
inductive CliOutcome where
  | usageExit
  | osError (e : OSErr)
  | proceeds (outPath : List Char)
deriving DecidableEq

/-- The `__main__` block of `scrape_incs.py` before scraping: usage exit
unless `sys.argv` has exactly two entries (script name and output path), then
`os.makedirs(os.path.dirname(output_csv), exist_ok=True)`. -/
def scrapeMain (argv : List (List Char)) : CliOutcome :=
  match argv with
  | [_, out] =>
    (match makedirs (dirname out) with
     | Except.error e => CliOutcome.osError e
     | Except.ok _ => CliOutcome.proceeds out)
  | _ => CliOutcome.usageExit

/-! ### Helper lemmas -/

theorem complete_iff (r : Rec) :
    is_school_complete r = true ↔ getS r.School_Name ≠ [] ∧ getS r.Address ≠ [] := by
  simp [is_school_complete, List.isEmpty_iff]

theorem mem_flushIf {r : Rec} {ss : List Rec} {cur : Rec}
    (h : r ∈ flushIf ss cur) :
    r ∈ ss ∨ (is_school_complete cur = true ∧ r = cur) := by
  unfold flushIf at h
  rcases List.mem_append.mp h with h | h
  · exact Or.inl h
  · by_cases hc : is_school_complete cur = true
    · rw [if_pos hc] at h
      simp only [List.mem_singleton] at h
      exact Or.inr ⟨hc, h⟩
    · rw [if_neg hc] at h
      simp at h

theorem step_inv (p : List Rec × Rec) (l : List Char)
    (h : InvState p) : InvState (step p l) := by
  obtain ⟨h1, h2⟩ := h
  unfold step
  by_cases hc : identify_line_type l = LineType.unknown ∧ 10 < l.length ∧ pyIsUpper l = false
  · rw [if_pos hc]
    refine ⟨?_, ?_⟩
    · intro r hr
      rcases mem_flushIf hr with hr | ⟨hcomp, rfl⟩
      · exact h1 r hr
      · obtain ⟨hn, ha⟩ := (complete_iff _).mp hcomp
        exact ⟨hn, ha, h2 hn⟩
    · intro _
      rfl
  · rw [if_neg hc]
    cases ht : identify_line_type l <;>
      simp only [ht] <;>
      exact ⟨h1, fun hn => h2 hn⟩

theorem foldl_inv (lines : List (List Char)) (p : List Rec × Rec)
    (h : InvState p) : InvState (lines.foldl step p) := by
  induction lines generalizing p with
  | nil => exact h
  | cons l ls ih => exact ih _ (step_inv _ _ h)

theorem extract_good (lines : List (List Char)) (r : Rec)
    (hr : r ∈ extract_schools_data lines) : GoodRec r := by
  have hinv : InvState (lines.foldl step ([], emptyRec)) := by
    refine foldl_inv _ _ ⟨?_, ?_⟩
    · intro r hr
      simp at hr
    · intro hn
      simp [emptyRec, getS] at hn
  unfold extract_schools_data at hr
  rcases mem_flushIf hr with hm | ⟨hcomp, rfl⟩
  · exact hinv.1 _ hm
  · obtain ⟨hn, ha⟩ := (complete_iff _).mp hcomp
    exact ⟨hn, ha, hinv.2 hn⟩

theorem zipTail_of (z1 z2 z3 z4 z5 : Char) (t : List Char)
    (h1 : z1.isDigit = true) (h2 : z2.isDigit = true) (h3 : z3.isDigit = true)
    (h4 : z4.isDigit = true) (h5 : z5.isDigit = true)
    (ht : t = [] ∨ ∃ y1 y2 y3 y4,
      y1.isDigit = true ∧ y2.isDigit = true ∧ y3.isDigit = true ∧
      y4.isDigit = true ∧ t = ['-', y1, y2, y3, y4]) :
    zipTail (z1 :: z2 :: z3 :: z4 :: z5 :: t) = true := by
  rcases ht with rfl | ⟨y1, y2, y3, y4, hy1, hy2, hy3, hy4, rfl⟩ <;>
    simp [zipTail, atEnd, h1, h2, h3, h4, h5, *]

theorem ilTail_of (rest : List Char) (h : zipTail rest = true) :
    ilTail ('I' :: 'L' :: ' ' :: rest) = true := by
  simp [ilTail, isPySpace, h]

theorem midScan_append (m rest : List Char)
    (hm : m ≠ []) (hn : '\n' ∉ m) (h : ilTail rest = true) :
    midScan (m ++ rest) = true := by
  induction m with
  | nil => exact absurd rfl hm
  | cons c m ih =>
    have hc : ¬(c = '\n') := fun hcn => hn (hcn ▸ List.mem_cons_self c m)
    simp only [List.cons_append, midScan, Bool.and_eq_true, Bool.not_eq_eq_eq_not,
      Bool.or_eq_true, decide_eq_false_iff_not]
    refine ⟨by simpa using hc, ?_⟩
    cases m with
    | nil => exact Or.inl (by simpa using h)
    | cons d m2 =>
      exact Or.inr (ih (by simp) (fun hx => hn (List.mem_cons_of_mem c hx)))

theorem digitsThenMid_append (d rest : List Char)
    (hd : ∀ c ∈ d, c.isDigit = true) (hm : midScan rest = true) (hne : rest ≠ []) :
    digitsThenMid (d ++ rest) = true := by
  induction d with
  | nil =>
    cases rest with
    | nil => exact absurd rfl hne
    | cons c cs => simp [digitsThenMid, hm]
  | cons c d ih =>
    simp only [List.cons_append, digitsThenMid, Bool.or_eq_true, Bool.and_eq_true]
    exact Or.inr ⟨hd c (List.mem_cons_self c d),
      ih (fun x hx => hd x (List.mem_cons_of_mem c hx))⟩

theorem addressMatch_of_spec (l : List Char) (h : specAddrIL l) :
    addressMatch l = true := by
  obtain ⟨d, m, z1, z2, z3, z4, z5, t, hdne, hd, hmne, hmn, h1, h2, h3, h4, h5, ht, rfl⟩ := h
  have hzip := zipTail_of z1 z2 z3 z4 z5 t h1 h2 h3 h4 h5 ht
  have hil := ilTail_of _ hzip
  have hmid := midScan_append m _ hmne hmn hil
  rw [List.append_assoc]
  cases d with
  | nil => exact absurd rfl hdne
  | cons c d =>
    simp only [List.cons_append, addressMatch, Bool.and_eq_true]
    refine ⟨hd c (List.mem_cons_self c d), ?_⟩
    exact digitsThenMid_append d _ (fun x hx => hd x (List.mem_cons_of_mem c hx)) hmid
      (by cases m <;> simp_all)

theorem splitNl_single (l : List Char) (h : '\n' ∉ l) : splitNl l = [l] := by
  induction l with
  | nil => rfl
  | cons c cs ih =>
    have hc : ¬(c = '\n') := fun hcn => h (hcn ▸ List.mem_cons_self c cs)
    have ihc := ih (fun hx => h (List.mem_cons_of_mem c hx))
    simp [splitNl, hc, ihc]

theorem dropWhile_length_le (p : Char → Bool) (l : List Char) :
    (l.dropWhile p).length ≤ l.length := by
  induction l with
  | nil => simp
  | cons c cs ih =>
    by_cases hc : p c = true
    · simp only [List.dropWhile, hc, List.length_cons]
      omega
    · simp [List.dropWhile, hc]

theorem pyStrip_length_le (l : List Char) : (pyStrip l).length ≤ l.length := by
  unfold pyStrip
  calc ((l.dropWhile isPySpace).reverse.dropWhile isPySpace).reverse.length
      = ((l.dropWhile isPySpace).reverse.dropWhile isPySpace).length := by
        rw [List.length_reverse]
    _ ≤ (l.dropWhile isPySpace).reverse.length := dropWhile_length_le _ _
    _ = (l.dropWhile isPySpace).length := by rw [List.length_reverse]
    _ ≤ l.length := dropWhile_length_le _ _

theorem step_noop (st : List Rec × Rec) (l : List Char)
    (hu : identify_line_type l = LineType.unknown)
    (hs : l.length ≤ 10 ∨ pyIsUpper l = true) :
    step st l = st := by
  unfold step
  rw [if_neg, hu]
  rintro ⟨-, hlen, hup⟩
  rcases hs with hs | hs
  · omega
  · rw [hs] at hup
    exact Bool.noConfusion hup

/-! ### Claim theorems -/

/-- C1 (counterexample): a line classified `charter_type` does not update the
`Charter_Type` field of the current record: processing `Charter` on the
initial empty dict leaves the key absent rather than setting it to the line's
value. -/
theorem C1_counterexample :
    identify_line_type ("Charter".data) = LineType.charter_type ∧
    (step ([], emptyRec) ("Charter".data)).2.Charter_Type ≠ some ("Charter".data) := by
  decide

/-- C1 (amended): in the record assembler, a line classified `address`,
`phone`, `grade_levels`, `sqrp_rating` or `url` overwrites the corresponding
field of the current record with the line; a `sqrp_rating_line` or
`profile_line` line overwrites the field with the prefix-stripped remainder;
a `charter_type` line matches no branch and leaves the state unchanged
(the field keeps its seeded default `Charter` once a record is started). -/
theorem C1_field_updates (ss : List Rec) (cur : Rec) (l : List Char) :
    (identify_line_type l = LineType.address →
      step (ss, cur) l = (ss, { cur with Address := some l })) ∧
    (identify_line_type l = LineType.phone →
      step (ss, cur) l = (ss, { cur with Phone_Number := some l })) ∧
    (identify_line_type l = LineType.grade_levels →
      step (ss, cur) l = (ss, { cur with Grade_Levels := some l })) ∧
    (identify_line_type l = LineType.sqrp_rating →
      step (ss, cur) l = (ss, { cur with SQRP_Rating := some l })) ∧
    (identify_line_type l = LineType.sqrp_rating_line →
      step (ss, cur) l =
        (ss, { cur with
               SQRP_Rating := some (pyStrip (replaceAll ("SQRP Rating:".data) [] l)) })) ∧
    (identify_line_type l = LineType.url →
      step (ss, cur) l = (ss, { cur with School_Profile_URL := some l })) ∧
    (identify_line_type l = LineType.profile_line →
      step (ss, cur) l =
        (ss, { cur with
               School_Profile_URL := some (pyStrip (replaceAll ("School Profile:".data) [] l)) })) ∧
    (identify_line_type l = LineType.charter_type → step (ss, cur) l = (ss, cur)) := by
  refine ⟨?_, ?_, ?_, ?_, ?_, ?_, ?_, ?_⟩ <;>
    exact fun h => by simp [step, h]

/-- C1 (witness): the field-update theorem applied at a concrete phone line
and a concrete address line on the initial state. -/
theorem C1_witness :
    step ([], emptyRec) ("(773) 555-0100".data) =
      ([], { emptyRec with Phone_Number := some ("(773) 555-0100".data) }) ∧
    step ([], emptyRec) ("456 Oak St, Chicago, IL 60602".data) =
      ([], { emptyRec with Address := some ("456 Oak St, Chicago, IL 60602".data) }) :=
  ⟨(C1_field_updates [] emptyRec _).2.1 (by decide),
   (C1_field_updates [] emptyRec _).1 (by decide)⟩

/-- C3: every record in the assembler's output has non-empty `School_Name`
and `Address`; in particular the spec's no-address example (a name line
followed only by a phone line) yields no output records. -/
theorem C3_complete_records :
    (∀ (lines : List (List Char)) (r : Rec), r ∈ extract_schools_data lines →
      getS r.School_Name ≠ [] ∧ getS r.Address ≠ []) ∧
    extract_schools_data
      ["Example Academy High School".data, "(773) 555-0100".data] = [] := by
  refine ⟨?_, by decide⟩
  intro lines r hr
  obtain ⟨hn, ha, -⟩ := extract_good lines r hr
  exact ⟨hn, ha⟩

/-- C3 (witness): the completeness theorem applied to the one record produced
from a concrete name line and address line. -/
theorem C3_witness :
    getS (Rec.mk (some ("Government Hill Academy".data))
      (some ("456 Oak St, Chicago, IL 60602".data))
      (some []) (some ("Charter".data)) (some []) (some []) (some [])).School_Name ≠ [] ∧
    getS (Rec.mk (some ("Government Hill Academy".data))
      (some ("456 Oak St, Chicago, IL 60602".data))
      (some []) (some ("Charter".data)) (some []) (some []) (some [])).Address ≠ [] :=
  C3_complete_records.1
    ["Government Hill Academy".data, "456 Oak St, Chicago, IL 60602".data]
    _ (by decide)

/-- C4: the assembler run on the spec's seven example lines yields exactly
one record whose seven fields are those lines verbatim. -/
theorem C4_end_to_end :
    extract_schools_data
      ["Acme Charter School".data,
       "123 Main St, Chicago, IL 60601".data,
       "(773) 555-0100".data,
       "Charter".data,
       "K-8".data,
       "Level 2".data,
       "https://www.incschools.org/school/acme/".data] =
    [Rec.mk (some ("Acme Charter School".data))
      (some ("123 Main St, Chicago, IL 60601".data))
      (some ("(773) 555-0100".data))
      (some ("Charter".data))
      (some ("K-8".data))
      (some ("Level 2".data))
      (some ("https://www.incschools.org/school/acme/".data))] := by
  decide

/-- C5: an `unknown` line that is at most 10 characters long or entirely
upper-case is a no-op of the assembler loop: deleting it from the input
leaves the output sequence unchanged, so it neither becomes a record's name
nor flushes the current record. -/
theorem C5_unknown_no_new_record (pre post : List (List Char)) (l : List Char)
    (hu : identify_line_type l = LineType.unknown)
    (hs : l.length ≤ 10 ∨ pyIsUpper l = true) :
    extract_schools_data (pre ++ l :: post) = extract_schools_data (pre ++ post) := by
  unfold extract_schools_data
  rw [List.foldl_append, List.foldl_append, List.foldl_cons, step_noop _ _ hu hs]

/-- C5 (witness): the no-op theorem applied to a concrete all-uppercase
unknown line. -/
theorem C5_witness :
    extract_schools_data ([] ++ "ABCDEFGHIJKL".data :: []) =
      extract_schools_data ([] ++ []) :=
  C5_unknown_no_new_record [] [] _ (by decide) (Or.inr (by decide))

/-- C9: every record in the assembler's output has `Charter_Type` equal to
the seeded default `Charter`: no loop branch ever writes that field. -/
theorem C9_charter_default (lines : List (List Char)) (r : Rec)
    (hr : r ∈ extract_schools_data lines) :
    r.Charter_Type = some ("Charter".data) :=
  (extract_good lines r hr).2.2

/-- C9 (witness): the default-charter theorem applied to the one record
produced from a concrete name line and address line. -/
theorem C9_witness :
    (Rec.mk (some ("Acme Preparatory Academy".data))
      (some ("789 Pine Ave, Chicago, IL 60603".data))
      (some []) (some ("Charter".data)) (some []) (some []) (some [])).Charter_Type =
      some ("Charter".data) :=
  C9_charter_default
    ["Acme Preparatory Academy".data, "789 Pine Ave, Chicago, IL 60603".data]
    _ (by decide)

/-- C10: an `unknown` line longer than 10 characters with no cased character
at all (e.g. only digits and punctuation) starts a new school: the current
record is flushed when complete and the line becomes the fresh record's
`School_Name`, since `isupper()` is false for a string with no cased
character. -/
theorem C10_uncased_starts_record (ss : List Rec) (cur : Rec) (l : List Char)
    (hu : identify_line_type l = LineType.unknown)
    (hlen : 10 < l.length)
    (hc : ∀ c ∈ l, isCased c = false) :
    step (ss, cur) l = (flushIf ss cur, seedRec l) ∧
    (seedRec l).School_Name = some l := by
  have hany : l.any isCased = false := by
    rw [List.any_eq_false]
    intro x hx
    simp [hc x hx]
  have hup : pyIsUpper l = false := by
    simp [pyIsUpper, hany]
  refine ⟨?_, rfl⟩
  unfold step
  rw [if_pos ⟨hu, hlen, hup⟩]

/-- C10 (witness): the theorem applied to a concrete 12-character line of
punctuation only. -/
theorem C10_witness :
    step ([], emptyRec) ("............".data) =
      (flushIf [] emptyRec, seedRec ("............".data)) ∧
    (seedRec ("............".data)).School_Name = some ("............".data) :=
  C10_uncased_starts_record [] emptyRec _ (by decide) (by decide) (by decide)

/-- C2 (counterexample): a line satisfying the claim's condition — starts
with digits, ends with the two-letter state code `TX`, a space and a 5-digit
ZIP, contains no phone-shaped substring — is classified `unknown`, not
`address`: the embedded pattern only accepts the literal `IL`. -/
theorem C2_counterexample :
    specClaimAddress ("123 Main St, Houston, TX 77001".data) ∧
    containsPhone ("123 Main St, Houston, TX 77001".data) = false ∧
    identify_line_type ("123 Main St, Houston, TX 77001".data) ≠ LineType.address := by
  refine ⟨⟨⟨'1', "23 Main St, Houston, TX 77001".data, by decide, by decide⟩,
    ⟨"123 Main St, Houston, ".data, 'T', 'X', '7', '7', '0', '0', '1',
      by decide, by decide, by decide, by decide, by decide, by decide,
      by decide, by decide⟩⟩, by decide, by decide⟩

/-- C2 (amended): a whole line that starts with one or more digits, has at
least one further character, and ends with the literal state code `IL`
followed by a space and a 5-digit ZIP (optional `-dddd` suffix), with no
phone-shaped substring, is classified `address`. -/
theorem C2_address_classified (l : List Char)
    (h : specAddrIL l) (hp : containsPhone l = false) :
    identify_line_type l = LineType.address := by
  have ha := addressMatch_of_spec l h
  simp [identify_line_type, hp, ha]

/-- C2 (witness): the amended theorem applied to the concrete example
address line. -/
theorem C2_witness :
    identify_line_type ("123 Main St, Chicago, IL 60601".data) = LineType.address :=
  C2_address_classified _
    ⟨"123".data, " Main St, Chicago, ".data, '6', '0', '6', '0', '1', [],
      by decide, by decide, by decide, by decide, by decide, by decide,
      by decide, by decide, by decide, Or.inl rfl, by decide⟩
    (by decide)

/-- C6 (counterexample): the line `Search Results Page` has 3 space-separated
tokens and is removed by no other rule, yet the cleaner drops it: the code
counts space characters (`line.count(' ') < 3`), not tokens. -/
theorem C6_counterexample :
    specTokenCount ("Search Results Page".data) = 3 ∧
    containsSub ("Results".data) ("Search Results Page".data) = true ∧
    keepOther ("Search Results Page".data) = true ∧
    clean_text_lines ("Search Results Page".data) = [] := by
  decide

/-- C6 (amended): among stripped single lines not hit by another removal
rule, the cleaner removes exactly those containing `Results` that have fewer
than 3 space characters; a `Results` line with at least 3 spaces is kept. -/
theorem C6_results_rule (l : List Char)
    (hn : '\n' ∉ l) (hstrip : pyStrip l = l)
    (hres : containsSub ("Results".data) l = true)
    (hothers : keepOther l = true) :
    clean_text_lines l = (if l.count ' ' < 3 then [] else [l]) := by
  unfold clean_text_lines
  rw [splitNl_single l hn]
  by_cases hc : l.count ' ' < 3
  · simp [List.filterMap_cons, hstrip, keepLine, hothers, hres, hc]
  · have hc3 : 3 ≤ l.count ' ' := Nat.le_of_not_lt hc
    simp [List.filterMap_cons, hstrip, keepLine, hothers, hres, hc, hc3]

/-- C6 (witness): the amended theorem applied to a concrete kept `Results`
line with four spaces. -/
theorem C6_witness :
    clean_text_lines ("Results of the search here".data) =
      (if ("Results of the search here".data).count ' ' < 3 then []
       else [("Results of the search here".data)]) :=
  C6_results_rule _ (by decide) (by decide) (by decide) (by decide)

/-- C7 (counterexample): no fixed non-empty label is stripped from the
address sub-element's text: the extractor returns the address text verbatim,
so the claim's stripping property fails for every candidate label. -/
theorem C7_counterexample : ¬addressLabelStripped := by
  rintro ⟨lab, hne, hall⟩
  have h1 := hall lab
  have h2 : (extractItem { emptyItem with address := some (lab ++ lab) }).address =
      lab ++ lab := rfl
  rw [h2] at h1
  have hlen : (lab ++ lab).length = (pyStrip lab).length := by rw [h1]
  have hle := pyStrip_length_le lab
  have hne0 : lab.length ≠ 0 := fun h0 => hne (List.length_eq_zero.mp h0)
  rw [List.length_append] at hlen
  omega

/-- C7 (amended): per matched list item, the address and phone sub-elements'
texts are taken verbatim (no label stripped); only grades, charter and
network have their fixed label literal replaced and the result stripped; any
absent sub-element yields the empty string. -/
theorem C7_field_extraction (li : LItem) :
    ((extractItem li).address = getS li.address) ∧
    ((extractItem li).phone = getS li.phone) ∧
    (li.address = none → (extractItem li).address = []) ∧
    (li.phone = none → (extractItem li).phone = []) ∧
    (li.grades = none → (extractItem li).grades = []) ∧
    (∀ t, li.grades = some t →
      (extractItem li).grades = pyStrip (replaceAll ("Grades Served:".data) [] t)) ∧
    (li.charter = none → (extractItem li).charter = []) ∧
    (∀ t, li.charter = some t →
      (extractItem li).charter = pyStrip (replaceAll ("Charter Type:".data) [] t)) ∧
    (li.network = none → (extractItem li).network = []) ∧
    (∀ t, li.network = some t →
      (extractItem li).network = pyStrip (replaceAll ("Network:".data) [] t)) := by
  refine ⟨rfl, rfl, ?_, ?_, ?_, ?_, ?_, ?_, ?_, ?_⟩ <;>
    first
    | exact fun t h => by simp [extractItem, h]
    | exact fun h => by simp [extractItem, getS, h]

/-- C7 (witness): the amended theorem applied to a concrete item carrying
only a labeled grades sub-element. -/
theorem C7_witness :
    (extractItem (LItem.mk none none none (some ("Grades Served: K-8".data))
      none none)).grades =
      pyStrip (replaceAll ("Grades Served:".data) [] ("Grades Served: K-8".data)) ∧
    (extractItem (LItem.mk none none none (some ("Grades Served: K-8".data))
      none none)).address = [] :=
  ⟨(C7_field_extraction _).2.2.2.2.2.1 _ rfl,
   (C7_field_extraction _).2.2.1 rfl⟩

/-- C8: evaluating the modelled `__main__` block of `scrape_incs.py` at the
failing input: for the bare output filename `out.csv` the directory part is
empty and `os.makedirs('')` raises `FileNotFoundError`, while a path with a
directory component proceeds. -/
theorem C8_bare_filename_bug :
    scrapeMain ["scrape_incs.py".data, "out.csv".data] =
      CliOutcome.osError OSErr.fileNotFound ∧
    dirname ("out.csv".data) = [] ∧
    scrapeMain ["scrape_incs.py".data, "data/out.csv".data] =
      CliOutcome.proceeds ("data/out.csv".data) := by
  decide

end LNM
